import Mathlib

/-!
Shallow embedding of `source/appModuleHandler.py` (NVDA's app-module
registry) and verification of the specification's claims about it.

The Python module is single-threaded and imperative; it is embedded here as
pure functions over an explicit environment (`Env`: file system, process
snapshot, import outcomes, configuration) and an explicit registry state
(`St`: the `runningTable` dictionary plus a fresh-instance counter used to
track object identity).  Every `log.*` and `speech.speakMessage` call of the
source is recorded as an `Effect` in emission order.
-/

set_option autoImplicit false

deriving instance DecidableEq for Except

namespace AppModuleHandler

/-- A Python process-identifier value as it flows through this module: the
registry uses `int` process IDs, while `AppModuleHandler.initialize` passes the
string sentinel `"_default"` as a processID. -/
inductive ProcRef where
  | pid (n : Nat)
  | str (s : String)
  deriving DecidableEq, Repr

/-- Observable side effects of the module: each constructor corresponds to one
`log.debug` / `log.info` / `log.error` / `speech.speakMessage` call site in the
source. -/
inductive Effect where
  | logDebugAppName (appName : String)
  | logDebugModuleExists (name : String) (res : Bool)
  | logDebugFoundKeyMap (appName fname : String)
  | logDebugNoKeyMap (appName : String)
  | logErrorBinding (script key appName : String)
  | logDebugAddedBindings (count : Nat) (appName fname : String)
  | logErrorAppModule (appName : String)
  | speakErrorInAppModule (appName : String)
  | logInfoLoadedAppModule (appName : String)
  | logDebugAppClosed (appName : String)
  | eventAppLoseFocus (uid : Nat)
  | logInfoLoadedDefault
  | speakCouldNotLoadDefaultKeyMap
  | speakCouldNotLoadDefault
  deriving DecidableEq, Repr

/-- Is the effect a user-facing spoken notification (a
`speech.speakMessage` call)? -/
def Effect.isSpeech : Effect → Bool
  | .speakErrorInAppModule _ => true
  | .speakCouldNotLoadDefaultKeyMap => true
  | .speakCouldNotLoadDefault => true
  | _ => false

/-- The value found at the `AppModule` attribute of a successfully imported
Python module: either Python `None` or a class (identified by a number). -/
inductive AttrVal where
  | pyNone
  | cls (c : Nat)
  deriving DecidableEq, Repr

/-- Outcome of `__import__(appName, ...)` followed by the `.AppModule`
attribute access, for a module whose source file exists:
the import itself may raise, or the module loads with the attribute either
absent or holding a value. -/
inductive ImportOutcome where
  | importError
  | loads (appModuleAttr : Option AttrVal)
  deriving DecidableEq, Repr

/-- The class object returned by `fetchAppModuleClass`: the generic base
`AppModule` class defined at the bottom of the source file, or a custom class
exported by an app module. -/
inductive ModClass where
  | defaultClass
  | custom (c : Nat)
  deriving DecidableEq, Repr

/-- Python exceptions this module can raise. -/
inductive PyErr where
  | runtimeError
  | nameError
  deriving DecidableEq, Repr

/-- The external world as seen by the module: filesystem contents, the OS
process snapshot, import outcomes, configuration, and the collaborators'
answers.  All fields are snapshots of an unchanging world during one call. -/
structure Env where
  /-- the global `NVDAProcessID` (set by startup; `None` before). -/
  nvdaProcessID : Option Nat
  /-- `os.getpid()` of the host. -/
  ownPid : Nat
  /-- toolhelp snapshot: `(th32ProcessID, szExeFile)` entries in order. -/
  snapshot : List (Nat × String)
  /-- the filesystem: path to file lines (as yielded by Python file
  iteration), `none` when `os.path.isfile` is false. -/
  files : String → Option (List String)
  /-- outcome of importing the app module named by the key (consulted only
  when its source file exists). -/
  importResult : String → ImportOutcome
  /-- `config.conf["keyboard"]["keyboardLayout"]`. -/
  layout : String
  /-- Modelled from the spec: which script names resolve when
  `bindKey_runtime` (defined in the `baseObject` collaborator, not in this
  file) is asked to bind them; unknown names make the bind raise. -/
  scripts : String → Bool
  /-- result of the zero-timeout wait on the process handle of the given
  process (`AppModule._get_isAlive`). -/
  alive : ProcRef → Bool
  /-- uids of the `AppModule` instances currently reachable from the focus
  ancestry (`api.getFocusAncestors() + [api.getFocusObject()]`). -/
  focusChain : List Nat
  /-- whether the instance with the given uid has an `event_appLoseFocus`
  attribute. -/
  handlesLoseFocus : Nat → Bool
  /-- `winUser.getForegroundWindow()`. -/
  foregroundWindow : Nat
  /-- `winUser.getDesktopWindow()`. -/
  desktopWindow : Nat

/-- One `AppModule` instance.  `uid` models Python object identity: each
construction yields a fresh uid.  `keyMap = none` models the absence of the
`_keyMap` attribute in the instance `__dict__`. -/
structure Module where
  uid : Nat
  processID : ProcRef
  appName : String
  cls : ModClass
  keyMap : Option (List (String × String))
  deriving DecidableEq, Repr

/-- The mutable registry state: the `runningTable` dict (association list,
insertion order) and the next fresh instance uid. -/
structure St where
  runningTable : List (Nat × Module)
  nextUid : Nat
  deriving DecidableEq, Repr

/-- The module-level globals touched by startup. -/
structure Globals where
  nvdaProcessID : Option Nat
  defaultMod : Option Module
  deriving DecidableEq, Repr

/-! ### Python string helpers (`\s`, `str.isspace`, `str.lower`,
`os.path.splitext`) -/

/-- Python 2 `\s` / whitespace set for byte strings: space, tab, newline,
carriage return, vertical tab, form feed. -/
def isPySpace (c : Char) : Bool :=
  c = ' ' || c = '\t' || c = '\n' || c = '\r' || c = Char.ofNat 11 || c = Char.ofNat 12

/-- Python `str.isspace()`: nonempty and all characters whitespace. -/
def pyIsSpace (s : String) : Bool :=
  !s.toList.isEmpty && s.toList.all isPySpace

/-- Python `str.startswith('#')`: the first character is `#`. -/
def startsWithHash (s : String) : Bool :=
  match s.toList with
  | '#' :: _ => true
  | _ => false

/-- Python 2 `str.lower()` under the default locale: ASCII lowercasing. -/
def pyLower (s : String) : String :=
  String.mk (s.toList.map Char.toLower)

/-- Python `str.rfind(c)`: index of the last occurrence, `-1` when absent. -/
def rfindI (c : Char) (cs : List Char) : Int :=
  cs.enum.foldl (fun acc e => if e.2 = c then (e.1 : Int) else acc) (-1)

/-- First component of `os.path.splitext` on Windows (`ntpath`, which defers
to `genericpath._splitext` with separators `\` and `/` and extension
separator `.`): the extension starts at the last dot, provided it lies after
the last path separator and the base name is not made of leading dots only. -/
def pySplitextRoot (p : String) : String :=
  let cs := p.toList
  let sepIndex := max (rfindI '\\' cs) (rfindI '/' cs)
  let dotIndex := rfindI '.' cs
  if sepIndex < dotIndex then
    if cs.enum.any (fun e =>
        decide (sepIndex < (e.1 : Int)) && decide ((e.1 : Int) < dotIndex) && e.2 != '.') then
      String.mk (cs.take dotIndex.toNat)
    else p
  else p

/-! ### The key-map line pattern

`re_keyScript = re.compile(r'^\s*(?P<key>[\S]+)\s*=\s*(?P<script>[\S]+)\s*$')`

The matcher below implements exactly this pattern with Python's leftmost,
greedy-with-backtracking semantics.  The leading `\s*` is deterministic
(whitespace and `[\S]+` are disjoint); the `key` group greedily takes the
first maximal non-space run and backtracks from the right; after the `=` the
`script` group must be a full non-space run followed by whitespace only
(shortening it would leave a non-space character before `\s*$`). -/

/-- Match `\s*=\s*(?P<script>[\S]+)\s*$` against the rest of the line,
returning the script group. -/
def matchTail (cs : List Char) : Option (List Char) :=
  match cs.dropWhile isPySpace with
  | '=' :: cs2 =>
    let cs3 := cs2.dropWhile isPySpace
    let scr := cs3.takeWhile (fun c => !isPySpace c)
    let rest := cs3.dropWhile (fun c => !isPySpace c)
    if scr.isEmpty then none
    else if rest.all isPySpace then some scr else none
  | _ => none

/-- Backtrack the `key` group from the right: `keyRev` is the not-yet-ceded
part of the key candidate, reversed; `rest` is the remainder of the line.
Tries the longest key first, as the greedy `[\S]+` does. -/
def backtrackKeyRev : List Char → List Char → Option (List Char × List Char)
  | [], _ => none
  | c :: kr, rest =>
    match matchTail rest with
    | some scr => some ((c :: kr).reverse, scr)
    | none => backtrackKeyRev kr (c :: rest)

/-- `re_keyScript.match(line)`: the `(key, script)` groups, or `none` when the
line does not match. -/
def matchKeyScript (line : String) : Option (String × String) :=
  let cs := line.toList.dropWhile isPySpace
  let run := cs.takeWhile (fun c => !isPySpace c)
  let rest := cs.dropWhile (fun c => !isPySpace c)
  match backtrackKeyRev run.reverse rest with
  | some (k, s) => some (String.mk k, String.mk s)
  | none => none

/-! ### Process identity resolution -/

/-- Python `processID == NVDAProcessID`: an `int` compares equal only to the
same `int`; the string sentinel and `None` never compare equal to an id. -/
def refEqNvda : ProcRef → Option Nat → Bool
  | .pid n, some m => n == m
  | _, _ => false

/-- The `Process32First`/`Process32Next` scan: first snapshot entry whose
`th32ProcessID` equals the requested process reference (a string reference
never equals a numeric id), else the initial `str()` value. -/
def scanSnapshot : List (Nat × String) → ProcRef → String
  | [], _ => ""
  | (p, exe) :: rest, ref =>
    match ref with
    | .pid n => if n == p then exe else scanSnapshot rest (ProcRef.pid n)
    | .str s => scanSnapshot rest (ProcRef.str s)

/-- Result of `getAppNameFromProcessID`: the name, whether a toolhelp
snapshot was taken, and the logged effects. -/
structure NameRes where
  name : String
  tookSnapshot : Bool
  effects : List Effect
  deriving DecidableEq, Repr

/-- `getAppNameFromProcessID(processID, includeExt=False)`. -/
def getAppNameFromProcessID (env : Env) (processID : ProcRef) (includeExt : Bool) : NameRes :=
  if refEqNvda processID env.nvdaProcessID then
    { name := if includeExt then "nvda.exe" else "nvda"
      tookSnapshot := false
      effects := [] }
  else
    let appName := scanSnapshot env.snapshot processID
    let appName := if !includeExt then pyLower (pySplitextRoot appName) else appName
    { name := appName
      tookSnapshot := true
      effects := [Effect.logDebugAppName appName] }

/-! ### Module discovery (`moduleExists`, `fetchAppModuleClass`) -/

/-- Path of the extension source file checked by `moduleExists`. -/
def pyModulePath (name : String) : String :=
  "appModules/" ++ name ++ ".py"

/-- `moduleExists(name)`: `os.path.isfile('appModules/%s.py' % name)` plus its
debug log. -/
def moduleExists (env : Env) (name : String) : Bool × List Effect :=
  let res := (env.files (pyModulePath name)).isSome
  (res, [Effect.logDebugModuleExists name res])

/-- `fetchAppModuleClass(appName)`: `mod` starts as `None`; when the source
file exists, `__import__(appName, ...).AppModule` is attempted and any
exception (import failure or missing `AppModule` attribute) is logged, spoken
and re-raised as `RuntimeError`; a final `None` (file absent, or attribute
equal to `None`) yields the base `AppModule` class. -/
def fetchAppModuleClass (env : Env) (appName : String) :
    Except PyErr ModClass × List Effect :=
  let (res, effs) := moduleExists env appName
  if res then
    match env.importResult appName with
    | .importError =>
      (.error .runtimeError,
        effs ++ [Effect.logErrorAppModule appName, Effect.speakErrorInAppModule appName])
    | .loads none =>
      (.error .runtimeError,
        effs ++ [Effect.logErrorAppModule appName, Effect.speakErrorInAppModule appName])
    | .loads (some .pyNone) => (.ok .defaultClass, effs)
    | .loads (some (.cls c)) => (.ok (.custom c), effs)
  else
    (.ok .defaultClass, effs)

/-! ### Key map resolution and loading -/

/-- The `.kbd` path tried by `getKeyMapFileName`. -/
def kbdPath (appName layout : String) : String :=
  "appModules/" ++ appName ++ "_" ++ layout ++ ".kbd"

/-- `getKeyMapFileName(appName, layout)`: the requested layout's file when it
exists, otherwise a single retry with `'desktop'`, otherwise `None`.  The
source expresses the retry as `getKeyMapFileName(appName, 'desktop')`; since
that recursive call always takes one of its non-recursive branches (its
layout equality test is true), it is inlined here, keeping the definition
structurally computable. -/
def getKeyMapFileName (env : Env) (appName layout : String) :
    Option String × List Effect :=
  let fname := kbdPath appName layout
  if (env.files fname).isSome then
    (some fname, [Effect.logDebugFoundKeyMap appName fname])
  else if layout ≠ "desktop" then
    let fname2 := kbdPath appName "desktop"
    if (env.files fname2).isSome then
      (some fname2, [Effect.logDebugFoundKeyMap appName fname2])
    else
      (none, [Effect.logDebugNoKeyMap appName])
  else
    (none, [Effect.logDebugNoKeyMap appName])

/-- Modelled from the spec: `bindKey_runtime` lives in the `baseObject`
collaborator, which is not under `src/`.  Per the spec, binding a line whose
script name does not resolve fails at runtime (and the caller logs and skips
it); a successful bind records the key-to-script pair in the module's key
map, creating the map when absent. -/
def bindKeyRuntime (env : Env) (mod : Module) (key script : String) :
    Except PyErr Module :=
  if env.scripts script then
    let km := mod.keyMap.getD []
    let km :=
      if km.any (fun e => e.1 == key) then
        km.map (fun e => if e.1 == key then (key, script) else e)
      else km ++ [(key, script)]
    .ok { mod with keyMap := some km }
  else
    .error .runtimeError

/-- The per-line loop of `loadKeyMap` over the kept lines: a non-matching
line is passed over; a matching line is bound, counting successes and logging
(and skipping) runtime bind failures. -/
def processLines (env : Env) (appName : String) :
    List String → Module → Nat → Module × Nat × List Effect
  | [], mod, cnt => (mod, cnt, [])
  | line :: rest, mod, cnt =>
    match matchKeyScript line with
    | none => processLines env appName rest mod cnt
    | some (k, s) =>
      match bindKeyRuntime env mod k s with
      | .ok mod' => processLines env appName rest mod' (cnt + 1)
      | .error _ =>
        let (m2, c2, e2) := processLines env appName rest mod cnt
        (m2, c2, Effect.logErrorBinding s k appName :: e2)

/-- The generator filter of `loadKeyMap`: keep lines that do not start with
`#` and are not whitespace-only. -/
def keptLines (lines : List String) : List String :=
  lines.filter (fun x => !startsWithHash x && !pyIsSpace x)

/-- `loadKeyMap(appName, mod)`: resolve the key-map file for the configured
layout; absent means return `False` untouched; otherwise clear a
previously-present `_keyMap`, process the kept lines, log the binding count
and return `True`. -/
def loadKeyMap (env : Env) (appName : String) (mod : Module) :
    Bool × Module × List Effect :=
  let layout := env.layout
  let (keyMapFileName, effs0) := getKeyMapFileName env appName layout
  match keyMapFileName with
  | none => (false, mod, effs0)
  | some fname =>
    let lines := (env.files fname).getD []
    let mod := if mod.keyMap.isSome then { mod with keyMap := some [] } else mod
    let (mod, bindCount, effs1) := processLines env appName (keptLines lines) mod 0
    (true, mod, effs0 ++ effs1 ++ [Effect.logDebugAddedBindings bindCount appName fname])

/-! ### The running registry -/

/-- `runningTable.get(processID)`: first entry with the key. -/
def lookupTable : List (Nat × Module) → Nat → Option Module
  | [], _ => none
  | (k, m) :: rest, pid => if k == pid then some m else lookupTable rest pid

/-- `del runningTable[key]`: drop the entry with the key (under the table's
key-uniqueness invariant there is exactly one, so the Python `KeyError` case
does not arise; a string key matches no numeric key). -/
def eraseProc (l : List (Nat × Module)) (r : ProcRef) : List (Nat × Module) :=
  match r with
  | .pid p => l.filter (fun e => e.1 ≠ p)
  | .str _ => l

/-- The `AppModule.__init__` body: store the processID and the (already
resolved) appName; the key map attribute does not exist yet. -/
def mkModule (uid : Nat) (processID : ProcRef) (appName : String) (cls : ModClass) : Module :=
  { uid := uid, processID := processID, appName := appName, cls := cls, keyMap := none }

/-- `getAppModuleFromProcessID(processID)`: on a cache hit return the stored
instance; on a miss resolve the name, fetch the class (propagating its
`RuntimeError`), construct the instance, log custom classes, load its key map
and store it.  Returns the result, the (possibly unchanged) registry state
and the effects. -/
def getAppModuleFromProcessID (env : Env) (st : St) (processID : Nat) :
    Except PyErr Module × St × List Effect :=
  match lookupTable st.runningTable processID with
  | some mod => (.ok mod, st, [])
  | none =>
    let nr := getAppNameFromProcessID env (ProcRef.pid processID) false
    match fetchAppModuleClass env nr.name with
    | (.error e, effs) => (.error e, st, nr.effects ++ effs)
    | (.ok modClass, effs) =>
      let mod := mkModule st.nextUid (ProcRef.pid processID) nr.name modClass
      let effs1 := if modClass ≠ ModClass.defaultClass
        then [Effect.logInfoLoadedAppModule mod.appName] else []
      let (_, mod, effs2) := loadKeyMap env mod.appName mod
      (.ok mod,
       { runningTable := st.runningTable ++ [(processID, mod)], nextUid := st.nextUid + 1 },
       nr.effects ++ effs ++ effs1 ++ effs2)

/-- The body of `update`'s `for deadMod in [...]` loop, one iteration per
dead module collected up front: log, evict by the dead module's processID,
notify focus loss when applicable, then call
`getAppModuleFromProcessID(processID)` (inside the loop, as in the source).
Returns the outcome, the state reached (also on an escaping exception), the
number of `getAppModuleFromProcessID` calls made, and the effects. -/
def updateGo (env : Env) (processID : Nat) :
    List Module → St → Nat → Except PyErr Unit × St × Nat × List Effect
  | [], st, n => (.ok (), st, n, [])
  | deadMod :: rest, st, n =>
    let st1 : St := { st with runningTable := eraseProc st.runningTable deadMod.processID }
    let e1 := [Effect.logDebugAppClosed deadMod.appName] ++
      (if deadMod.uid ∈ env.focusChain ∧ env.handlesLoseFocus deadMod.uid
       then [Effect.eventAppLoseFocus deadMod.uid] else [])
    match getAppModuleFromProcessID env st1 processID with
    | (.error e, st2, e2) => (.error e, st2, n + 1, e1 ++ e2)
    | (.ok _, st2, e2) =>
      let (r, st3, n3, e3) := updateGo env processID rest st2 (n + 1)
      (r, st3, n3, e1 ++ e2 ++ e3)

/-- `update(processID)`: collect the dead cached modules (a snapshot of the
table's values filtered by the liveness poll), then run the eviction loop. -/
def update (env : Env) (st : St) (processID : Nat) :
    Except PyErr Unit × St × Nat × List Effect :=
  let dead := (st.runningTable.map Prod.snd).filter (fun mod => !env.alive mod.processID)
  updateGo env processID dead st 0

/-! ### Active module resolution and startup -/

/-- `getActiveModule()`: reads the foreground window, then calls
`getAppModuleFromWindow(fg)` — a name defined nowhere in the module (and not
imported), so the call raises `NameError` before any lookup happens. -/
def getActiveModule (env : Env) (st : St) : Except PyErr Module × St × List Effect :=
  let _fg := env.foregroundWindow
  (.error .nameError, st, [])

/-- `initialize()` of the source (named `startup` here because `initialize`
is a Lean keyword): set `NVDAProcessID`, fetch the `_default` class
(propagating a load failure after its log and speech), construct the default
instance (the source passes the desktop window handle as the `appName`
positional argument, so it is stored as the name), assign the `default`
global, and require its key map to load, speaking and raising otherwise.
The constructed class object is always truthy, so the source's
`else: ... Could not load default module` branch is unreachable.
The source assigns the `NVDAProcessID` global first; nothing later in the
function reads it (the constructor receives an explicit `appName`), so the
assignment shows up only in the returned globals. -/
def startup (env : Env) : Except PyErr Unit × Globals × List Effect :=
  match fetchAppModuleClass env "_default" with
  | (.error e, effs) =>
    (.error e, { nvdaProcessID := some env.ownPid, defaultMod := none }, effs)
  | (.ok modClass, effs) =>
    let dmod := mkModule 0 (ProcRef.str "_default") (toString env.desktopWindow) modClass
    let (found, dmod, effs1) := loadKeyMap env "_default" dmod
    if found then
      (.ok (),
       { nvdaProcessID := some env.ownPid, defaultMod := some dmod },
       effs ++ effs1 ++ [Effect.logInfoLoadedDefault])
    else
      (.error .runtimeError,
       { nvdaProcessID := some env.ownPid, defaultMod := some dmod },
       effs ++ effs1 ++ [Effect.speakCouldNotLoadDefaultKeyMap])

/-! ### Concrete environments and states used by witnesses and
counterexamples -/

/-- An environment with an empty filesystem, empty snapshot and every process
alive. -/
def envEmpty : Env := {
  nvdaProcessID := none
  ownPid := 1
  snapshot := []
  files := fun _ => none
  importResult := fun _ => ImportOutcome.loads none
  layout := "desktop"
  scripts := fun _ => false
  alive := fun _ => true
  focusChain := []
  handlesLoseFocus := fun _ => false
  foregroundWindow := 9
  desktopWindow := 100 }

/-- A fresh module instance for the application `"app"`. -/
def modApp : Module := mkModule 0 (ProcRef.pid 5) "app" ModClass.defaultClass

/-- An environment in the laptop layout whose only file is the desktop
key-map for `"app"`, holding one valid binding line. -/
def envFb : Env := { envEmpty with
  layout := "laptop"
  files := fun p =>
    if p = "appModules/app_desktop.kbd" then some ["ctrl+a = doSomething"] else none
  scripts := fun s => s = "doSomething" }

/-- An environment whose only file is a desktop key-map for `"app"` holding
two non-matching lines and no valid binding. -/
def envBogus : Env := { envEmpty with
  files := fun p =>
    if p = "appModules/app_desktop.kbd" then some ["bogusline1", "bogusline2"] else none }

/-- Raising outcomes of a Python-call model. -/
def isRaise {α : Type} : Except PyErr α → Bool
  | .error _ => true
  | .ok _ => false

/-- An environment where `appModules/broken.py` exists and fails to import,
and process 5 is named `broken.exe` in the snapshot. -/
def envBroken : Env := { envEmpty with
  snapshot := [(5, "broken.exe")]
  files := fun p => if p = "appModules/broken.py" then some [] else none
  importResult := fun n =>
    if n = "broken" then ImportOutcome.importError else ImportOutcome.loads none }

/-- The empty registry state. -/
def stEmpty : St := { runningTable := [], nextUid := 0 }

/-- An environment where `appModules/noattr.py` exists and imports cleanly
but the module defines no `AppModule` attribute. -/
def envNoAttr : Env := { envEmpty with
  files := fun p => if p = "appModules/noattr.py" then some [] else none }

/-- An environment where the `_default` key map is present, so startup
succeeds. -/
def envDefOk : Env := { envEmpty with
  files := fun p =>
    if p = "appModules/_default_desktop.kbd" then some ["k = doSomething"] else none
  scripts := fun s => s = "doSomething" }

/-- The executable name the toolhelp scan would report for a process ID:
the first snapshot entry with that ID. -/
def findExe (l : List (Nat × String)) (pid : Nat) : Option String :=
  (l.find? (fun e => pid == e.1)).map Prod.snd

/-- An environment whose snapshot names process 5 with a full path. -/
def envPath : Env := { envEmpty with snapshot := [(5, "C:\\dir\\App.EXE")] }

/-- An environment whose own process ID is 1. -/
def envNvda : Env := { envEmpty with nvdaProcessID := some 1 }

/-- Well-formedness of the registry state: keys are unique, each stored
module records its own key as its processID, and all stored uids are below
the fresh counter. -/
def WFSt (st : St) : Prop :=
  (st.runningTable.map Prod.fst).Nodup ∧
  ∀ e ∈ st.runningTable, e.2.processID = ProcRef.pid e.1 ∧ e.2.uid < st.nextUid

instance (st : St) : Decidable (WFSt st) := by
  unfold WFSt
  infer_instance

/-- A registry holding one (alive, under `envEmpty`) entry for process 1. -/
def stOneAlive : St :=
  { runningTable := [(1, mkModule 0 (ProcRef.pid 1) "one" ModClass.defaultClass)]
    nextUid := 1 }

/-- `envEmpty` with process 1 dead. -/
def envDead : Env := { envEmpty with alive := fun r => r ≠ ProcRef.pid 1 }

/-- The state reached by `update envDead stOneAlive 2`. -/
def stAfterDead : St :=
  { runningTable := [(2, mkModule 1 (ProcRef.pid 2) "" ModClass.defaultClass)]
    nextUid := 2 }

/-- The effects of `update envDead stOneAlive 2`. -/
def effsDead : List Effect :=
  [Effect.logDebugAppClosed "one", Effect.logDebugAppName "",
   Effect.logDebugModuleExists "" false, Effect.logDebugNoKeyMap ""]


/-- Shared helper: when no key-map file resolves for the configured layout,
`loadKeyMap` returns `False` with the module untouched, emitting only the
resolver's own log. -/
theorem loadKeyMap_no_file (env : Env) (app : String) (mod : Module)
    (h : (getKeyMapFileName env app env.layout).1 = none) :
    loadKeyMap env app mod = (false, mod, (getKeyMapFileName env app env.layout).2) := by
  rcases hgk : getKeyMapFileName env app env.layout with ⟨o, e0⟩
  rw [hgk] at h
  simp only at h
  subst h
  simp only [loadKeyMap, hgk]

/-- Shared helper: `loadKeyMap` answers `False` exactly when the resolver
found no file. -/
theorem loadKeyMap_false_iff (env : Env) (app : String) (mod : Module) :
    (loadKeyMap env app mod).1 = false ↔ (getKeyMapFileName env app env.layout).1 = none := by
  rcases hgk : getKeyMapFileName env app env.layout with ⟨o, e0⟩
  cases o with
  | none =>
    rw [loadKeyMap_no_file env app mod (by rw [hgk])]
    simp [hgk]
  | some f =>
    simp [loadKeyMap, hgk]

/-- Shared helper: whenever `fetchAppModuleClass` raises, it has emitted the
spoken error notification (and the error log) for that application name. -/
theorem fetch_error_speaks (env : Env) (name : String) (e : PyErr)
    (h : (fetchAppModuleClass env name).1 = .error e) :
    Effect.logErrorAppModule name ∈ (fetchAppModuleClass env name).2
    ∧ Effect.speakErrorInAppModule name ∈ (fetchAppModuleClass env name).2 := by
  unfold fetchAppModuleClass moduleExists at h ⊢
  cases hfile : (env.files (pyModulePath name)).isSome with
  | false => simp [hfile] at h
  | true =>
    cases hi : env.importResult name with
    | importError => simp [hfile, hi]
    | loads a =>
      cases a with
      | none => simp [hfile, hi]
      | some v =>
        cases v with
        | pyNone => simp [hfile, hi] at h
        | cls c => simp [hfile, hi] at h

/-! ### C5 -/

/-- C5: for every process ID already present in the running registry, every
call to `getAppModuleFromProcessID` returns the identical cached instance
unconditionally — the state is untouched, nothing is logged, no liveness test
or reconstruction occurs (the result does not depend on the environment at
all) — until that entry is evicted by `update`. -/
theorem C5_cache_hit_returns_cached (env : Env) (st : St) (pid : Nat) (m : Module)
    (h : lookupTable st.runningTable pid = some m) :
    getAppModuleFromProcessID env st pid = (.ok m, st, []) := by
  unfold getAppModuleFromProcessID
  rw [h]

/-- C5 witness: a concrete registry holding pid 5 returns the stored
instance unchanged. -/
theorem C5_cache_hit_returns_cached_witness :
    getAppModuleFromProcessID envEmpty { runningTable := [(5, modApp)], nextUid := 1 } 5 =
      (.ok modApp, { runningTable := [(5, modApp)], nextUid := 1 }, []) :=
  C5_cache_hit_returns_cached envEmpty { runningTable := [(5, modApp)], nextUid := 1 } 5 modApp
    (by decide)

/-! ### C9 -/

/-- C9 (code bug): every call to `getActiveModule` raises `NameError`
immediately after reading the foreground window, because the function it
delegates to, `getAppModuleFromWindow`, is defined nowhere in the module and
is not imported; no process ID is extracted and `getAppModuleFromProcessID`
is never consulted. -/
theorem C9_getActiveModule_raises_nameError (env : Env) (st : St) :
    getActiveModule env st = (.error .nameError, st, []) := rfl

/-! ### C10 -/

/-- C10: when `getKeyMapFileName` resolves no file for the configured layout,
`loadKeyMap` returns `False` with the module — in particular its key-binding
map — completely unchanged; the wholesale clearing of a previous map happens
only after a file has been found. -/
theorem C10_no_file_leaves_keymap_unchanged (env : Env) (app : String) (mod : Module)
    (h : (getKeyMapFileName env app env.layout).1 = none) :
    loadKeyMap env app mod = (false, mod, (getKeyMapFileName env app env.layout).2) :=
  loadKeyMap_no_file env app mod h

/-- C10 witness: with an empty filesystem no key-map file resolves and the
module comes back untouched. -/
theorem C10_no_file_leaves_keymap_unchanged_witness :
    loadKeyMap envEmpty "app" modApp =
      (false, modApp, (getKeyMapFileName envEmpty "app" envEmpty.layout).2) :=
  C10_no_file_leaves_keymap_unchanged envEmpty "app" modApp (by decide)

/-! ### C6 -/

/-- C6: key-map resolution first tries `appModules/<appName>_<layout>.kbd`;
when that file is absent and the requested layout is not `desktop` it retries
with `desktop`; when that is also absent `getKeyMapFileName` yields `None`
and `loadKeyMap` returns `False` without binding anything (module
untouched). -/
theorem C6_keymap_layout_fallback (env : Env) (app : String) (mod : Module) :
    ((env.files (kbdPath app env.layout)).isSome →
      (getKeyMapFileName env app env.layout).1 = some (kbdPath app env.layout))
    ∧ (env.files (kbdPath app env.layout) = none → env.layout ≠ "desktop" →
        (env.files (kbdPath app "desktop")).isSome →
      (getKeyMapFileName env app env.layout).1 = some (kbdPath app "desktop"))
    ∧ (env.files (kbdPath app env.layout) = none →
        env.files (kbdPath app "desktop") = none →
      (getKeyMapFileName env app env.layout).1 = none
      ∧ (loadKeyMap env app mod).1 = false
      ∧ (loadKeyMap env app mod).2.1 = mod) := by
  refine ⟨?_, ?_, ?_⟩
  · intro h
    simp [getKeyMapFileName, h]
  · intro h1 h2 h3
    simp [getKeyMapFileName, h1, h2, h3]
  · intro h1 h2
    have hk : (getKeyMapFileName env app env.layout).1 = none := by
      by_cases hd : env.layout = "desktop"
      · rw [hd] at h1 ⊢
        simp [getKeyMapFileName, h1]
      · simp [getKeyMapFileName, h1, h2, hd]
    refine ⟨hk, ?_, ?_⟩
    · rw [loadKeyMap_no_file env app mod hk]
    · rw [loadKeyMap_no_file env app mod hk]

/-- C6 witness: in the laptop layout with only a desktop file present the
resolution falls back to the desktop file; with no file at all `loadKeyMap`
returns `false` leaving the module untouched. -/
theorem C6_keymap_layout_fallback_witness :
    (getKeyMapFileName envFb "app" envFb.layout).1 = some (kbdPath "app" "desktop")
    ∧ ((getKeyMapFileName envEmpty "app" envEmpty.layout).1 = none
       ∧ (loadKeyMap envEmpty "app" modApp).1 = false
       ∧ (loadKeyMap envEmpty "app" modApp).2.1 = modApp) :=
  ⟨(C6_keymap_layout_fallback envFb "app" modApp).2.1 (by decide) (by decide) (by decide),
   (C6_keymap_layout_fallback envEmpty "app" modApp).2.2 (by decide) (by decide)⟩

/-! ### C7 -/

/-- C7 counterexample: a found key-map file whose two kept lines both fail to
match the binding pattern yields `True` with zero bindings, the module
untouched, and exactly two logged entries — the file-found debug entry and
the summary reporting zero bindings.  Contrary to the claim, no diagnostic is
logged for either skipped non-matching line. -/
theorem C7_counterexample :
    loadKeyMap envBogus "app" modApp =
      (true, modApp,
        [Effect.logDebugFoundKeyMap "app" "appModules/app_desktop.kbd",
         Effect.logDebugAddedBindings 0 "app" "appModules/app_desktop.kbd"]) := by
  decide

/-- C7 (amended): `loadKeyMap` returns `True` exactly when a key-map file was
found, even with zero successful bindings; a kept line that does not match
the binding pattern is skipped silently — it is not logged per line and does
not abort processing of the remaining lines; `False` arises only when no file
was found. -/
theorem C7_true_iff_file_found (env : Env) (app : String) (mod : Module) :
    ((loadKeyMap env app mod).1 = false ↔ (getKeyMapFileName env app env.layout).1 = none)
    ∧ (∀ rest m cnt line, matchKeyScript line = none →
        processLines env app (line :: rest) m cnt = processLines env app rest m cnt) := by
  constructor
  · exact loadKeyMap_false_iff env app mod
  · intro rest m cnt line h
    simp [processLines, h]

/-- C7 witness: the fallback environment's `loadKeyMap` result agrees with
file presence, and a concrete non-matching line is processed as a silent
no-op. -/
theorem C7_true_iff_file_found_witness :
    ((loadKeyMap envFb "app" modApp).1 = false
      ↔ (getKeyMapFileName envFb "app" envFb.layout).1 = none)
    ∧ processLines envBogus "app" ["bogusline1"] modApp 0 =
        processLines envBogus "app" [] modApp 0 :=
  ⟨(C7_true_iff_file_found envFb "app" modApp).1,
   (C7_true_iff_file_found envBogus "app" modApp).2 [] modApp 0 "bogusline1" (by decide)⟩

/-! ### C1 -/

/-- C1: when no extension source file named after the application exists,
`fetchAppModuleClass` returns the generic `AppModule` class with no error
(nothing but the existence debug entry is emitted); when the file exists but
fails to import, it logs the failure, speaks an error notification, and
raises `RuntimeError`, which also propagates through a cache-miss
`getAppModuleFromProcessID` rather than falling back to the default class. -/
theorem C1_fetch_default_or_raise (env : Env) (name : String) (st : St) (pid : Nat) :
    (env.files (pyModulePath name) = none →
      fetchAppModuleClass env name =
        (.ok .defaultClass, [Effect.logDebugModuleExists name false]))
    ∧ (env.files (pyModulePath name) ≠ none →
       env.importResult name = .importError →
        (fetchAppModuleClass env name).1 = .error .runtimeError
        ∧ Effect.logErrorAppModule name ∈ (fetchAppModuleClass env name).2
        ∧ Effect.speakErrorInAppModule name ∈ (fetchAppModuleClass env name).2
        ∧ (lookupTable st.runningTable pid = none →
           (getAppNameFromProcessID env (ProcRef.pid pid) false).name = name →
           (getAppModuleFromProcessID env st pid).1 = .error .runtimeError)) := by
  constructor
  · intro h
    simp [fetchAppModuleClass, moduleExists, h]
  · intro h1 h2
    have hs : (env.files (pyModulePath name)).isSome = true :=
      Option.isSome_iff_ne_none.mpr h1
    have hfe : fetchAppModuleClass env name =
        (.error .runtimeError,
          [Effect.logDebugModuleExists name true, Effect.logErrorAppModule name,
           Effect.speakErrorInAppModule name]) := by
      simp [fetchAppModuleClass, moduleExists, hs, h2]
    refine ⟨by simp [hfe], by simp [hfe], by simp [hfe], ?_⟩
    intro hlk hname
    simp only [getAppModuleFromProcessID, hlk]
    rw [hname, hfe]

/-- C1 witness: a missing file yields the default class; the broken module
raises, speaks and the failure propagates through the registry lookup for
its process. -/
theorem C1_fetch_default_or_raise_witness :
    fetchAppModuleClass envBroken "unknown" =
      (.ok .defaultClass, [Effect.logDebugModuleExists "unknown" false])
    ∧ (fetchAppModuleClass envBroken "broken").1 = .error .runtimeError
    ∧ Effect.speakErrorInAppModule "broken" ∈ (fetchAppModuleClass envBroken "broken").2
    ∧ (getAppModuleFromProcessID envBroken stEmpty 5).1 = .error .runtimeError :=
  ⟨(C1_fetch_default_or_raise envBroken "unknown" stEmpty 5).1 (by decide),
   ((C1_fetch_default_or_raise envBroken "broken" stEmpty 5).2 (by decide) (by decide)).1,
   ((C1_fetch_default_or_raise envBroken "broken" stEmpty 5).2 (by decide) (by decide)).2.2.1,
   ((C1_fetch_default_or_raise envBroken "broken" stEmpty 5).2 (by decide) (by decide)).2.2.2
     (by decide) (by decide)⟩

/-! ### C3 -/

/-- C3 counterexample: the extension file for `"noattr"` exists and loads
successfully but lacks the exported `AppModule` symbol; contrary to the
claim, `fetchAppModuleClass` does not return the Default type — the
attribute lookup failure is caught by the bare `except:` and re-raised as
`RuntimeError`, with the spoken notification. -/
theorem C3_counterexample :
    (fetchAppModuleClass envNoAttr "noattr").1 = .error .runtimeError
    ∧ Effect.speakErrorInAppModule "noattr" ∈ (fetchAppModuleClass envNoAttr "noattr").2 := by
  decide

/-- C3 (amended): when the file exists, loads, and the exported `AppModule`
attribute is absent, the `AttributeError` is handled exactly like an import
failure — logged, spoken, and raised as `RuntimeError`.  The generic Default
type is returned without error only when the file does not exist, or when
the file loads and its `AppModule` attribute is the value `None`. -/
theorem C3_missing_symbol_raises (env : Env) (name : String) :
    (env.files (pyModulePath name) ≠ none → env.importResult name = .loads none →
      (fetchAppModuleClass env name).1 = .error .runtimeError
      ∧ Effect.logErrorAppModule name ∈ (fetchAppModuleClass env name).2
      ∧ Effect.speakErrorInAppModule name ∈ (fetchAppModuleClass env name).2)
    ∧ (env.files (pyModulePath name) = none →
      (fetchAppModuleClass env name).1 = .ok .defaultClass)
    ∧ (env.files (pyModulePath name) ≠ none →
       env.importResult name = .loads (some AttrVal.pyNone) →
      (fetchAppModuleClass env name).1 = .ok .defaultClass) := by
  refine ⟨?_, ?_, ?_⟩
  · intro h1 h2
    have hs : (env.files (pyModulePath name)).isSome = true :=
      Option.isSome_iff_ne_none.mpr h1
    refine ⟨by simp [fetchAppModuleClass, moduleExists, hs, h2], ?_⟩
    exact fetch_error_speaks env name .runtimeError
      (by simp [fetchAppModuleClass, moduleExists, hs, h2])
  · intro h
    simp [fetchAppModuleClass, moduleExists, h]
  · intro h1 h2
    have hs : (env.files (pyModulePath name)).isSome = true :=
      Option.isSome_iff_ne_none.mpr h1
    simp [fetchAppModuleClass, moduleExists, hs, h2]

/-- C3 amended-claim witness: the concrete `noattr` module raises with the
notification, a missing file and a `None`-valued attribute both yield the
default class. -/
theorem C3_missing_symbol_raises_witness :
    ((fetchAppModuleClass envNoAttr "noattr").1 = .error .runtimeError
      ∧ Effect.logErrorAppModule "noattr" ∈ (fetchAppModuleClass envNoAttr "noattr").2
      ∧ Effect.speakErrorInAppModule "noattr" ∈ (fetchAppModuleClass envNoAttr "noattr").2)
    ∧ (fetchAppModuleClass envNoAttr "absent").1 = .ok .defaultClass :=
  ⟨(C3_missing_symbol_raises envNoAttr "noattr").1 (by decide) (by decide),
   (C3_missing_symbol_raises envNoAttr "absent").2.1 (by decide)⟩

/-! ### C2 -/

/-- C2: when the Default extension cannot be loaded (its fetch raises) or its
key map cannot be loaded (no `_default` key-map file resolves), `startup` —
the source's `initialize` — always aborts by raising, with a spoken
notification among its effects; and it never completes normally in a
partially-initialized state: a normal return means the default module is
assigned and its key-map file was found and processed. -/
theorem C2_startup_aborts_on_default_failure (env : Env) :
    (isRaise (fetchAppModuleClass env "_default").1 = true
       ∨ (getKeyMapFileName env "_default" env.layout).1 = none →
      isRaise (startup env).1 = true
      ∧ ∃ e ∈ (startup env).2.2, e.isSpeech = true)
    ∧ ((startup env).1 = .ok () →
      (∃ m, (startup env).2.1.defaultMod = some m)
      ∧ ((getKeyMapFileName env "_default" env.layout).1.isSome = true)) := by
  rcases hf : fetchAppModuleClass env "_default" with ⟨r, effs⟩
  cases r with
  | error e =>
    have hsp := (fetch_error_speaks env "_default" e (by rw [hf])).2
    rw [hf] at hsp
    constructor
    · intro _
      refine ⟨by simp [startup, hf, isRaise], ?_⟩
      exact ⟨Effect.speakErrorInAppModule "_default", by simp [startup, hf]; exact hsp, rfl⟩
    · intro hok
      simp [startup, hf] at hok
  | ok cls =>
    rcases hl : loadKeyMap env "_default"
        (mkModule 0 (ProcRef.str "_default") (toString env.desktopWindow) cls)
      with ⟨found, dm, effs1⟩
    have hiff := loadKeyMap_false_iff env "_default"
      (mkModule 0 (ProcRef.str "_default") (toString env.desktopWindow) cls)
    rw [hl] at hiff
    cases found with
    | false =>
      have hnone : (getKeyMapFileName env "_default" env.layout).1 = none := by
        exact hiff.mp rfl
      constructor
      · intro _
        refine ⟨by simp [startup, hf, hl, isRaise], ?_⟩
        exact ⟨Effect.speakCouldNotLoadDefaultKeyMap, by simp [startup, hf, hl], rfl⟩
      · intro hok
        simp [startup, hf, hl] at hok
    | true =>
      constructor
      · intro hyp
        rcases hyp with hyp | hyp
        · simp [isRaise] at hyp
        · exfalso
          have := hiff.mpr hyp
          simp at this
      · intro _
        refine ⟨⟨dm, by simp [startup, hf, hl]⟩, ?_⟩
        rcases hgk : (getKeyMapFileName env "_default" env.layout).1 with _ | f
        · rw [hgk] at hiff
          simp at hiff
        · rfl

/-- C2 witness: with no files at all the `_default` key map cannot resolve
and startup aborts with a spoken notification; with a `_default` desktop key
map present it completes fully initialized. -/
theorem C2_startup_aborts_on_default_failure_witness :
    (isRaise (startup envEmpty).1 = true
      ∧ ∃ e ∈ (startup envEmpty).2.2, e.isSpeech = true)
    ∧ ((∃ m, (startup envDefOk).2.1.defaultMod = some m)
      ∧ (getKeyMapFileName envDefOk "_default" envDefOk.layout).1.isSome = true) :=
  ⟨(C2_startup_aborts_on_default_failure envEmpty).1 (Or.inr (by decide)),
   (C2_startup_aborts_on_default_failure envDefOk).2 (by decide)⟩

/-! ### C8 -/

/-- The while loop over `Process32First`/`Process32Next` computes the first
matching entry's executable field, or keeps the initial empty string. -/
theorem scanSnapshot_eq_findExe (l : List (Nat × String)) (pid : Nat) :
    scanSnapshot l (ProcRef.pid pid) = ((findExe l pid).getD "") := by
  induction l with
  | nil => rfl
  | cons e rest ih =>
    rcases e with ⟨p, exe⟩
    cases h : (pid == p) with
    | true => simp [scanSnapshot, findExe, List.find?, h]
    | false =>
      simp only [scanSnapshot, findExe, List.find?, h]
      rw [ih] at *
      simp [findExe]

/-- C8 counterexample: the snapshot reports `C:\dir\App.EXE` for process 5;
contrary to the claim, the code strips no path — only the extension is
stripped and the rest lower-cased, so the result keeps the directory prefix
instead of being `app`. -/
theorem C8_counterexample :
    (getAppNameFromProcessID envPath (ProcRef.pid 5) false).name = "c:\\dir\\app"
    ∧ (getAppNameFromProcessID envPath (ProcRef.pid 5) false).name ≠ "app" := by
  decide

/-- C8 (amended): when the processID equals the host's own process ID the
host's fixed name is returned without taking a process snapshot; otherwise a
snapshot is scanned for the first matching entry and the executable field is
taken as-is — any path is left intact — with the extension stripped and the
result lower-cased unless `includeExt` is set; when no entry matches, the
empty string is returned rather than raising. -/
theorem C8_name_resolution (env : Env) (pid : Nat) (ext : Bool) :
    (env.nvdaProcessID = some pid →
      getAppNameFromProcessID env (ProcRef.pid pid) ext =
        { name := if ext then "nvda.exe" else "nvda", tookSnapshot := false, effects := [] })
    ∧ (env.nvdaProcessID ≠ some pid →
      (getAppNameFromProcessID env (ProcRef.pid pid) ext).tookSnapshot = true
      ∧ (∀ exe, findExe env.snapshot pid = some exe →
          (getAppNameFromProcessID env (ProcRef.pid pid) ext).name =
            if ext then exe else pyLower (pySplitextRoot exe))
      ∧ (findExe env.snapshot pid = none →
          (getAppNameFromProcessID env (ProcRef.pid pid) ext).name = "")) := by
  constructor
  · intro h
    simp [getAppNameFromProcessID, refEqNvda, h]
  · intro h
    have hf : refEqNvda (ProcRef.pid pid) env.nvdaProcessID = false := by
      cases hm : env.nvdaProcessID with
      | none => rfl
      | some m =>
        simp only [refEqNvda, beq_eq_false_iff_ne, ne_eq]
        intro he
        exact h (by rw [hm, he])
    refine ⟨by simp [getAppNameFromProcessID, hf], ?_, ?_⟩
    · intro exe hexe
      cases ext with
      | true =>
        simp [getAppNameFromProcessID, hf, scanSnapshot_eq_findExe, hexe]
      | false =>
        simp [getAppNameFromProcessID, hf, scanSnapshot_eq_findExe, hexe]
    · intro hnone
      cases ext with
      | true =>
        simp [getAppNameFromProcessID, hf, scanSnapshot_eq_findExe, hnone]
      | false =>
        simp [getAppNameFromProcessID, hf, scanSnapshot_eq_findExe, hnone]
        rfl

/-- C8 amended-claim witness: the host's own process resolves to the fixed
name without a snapshot; the pathful snapshot entry resolves to its
extension-stripped, lower-cased executable field. -/
theorem C8_name_resolution_witness :
    getAppNameFromProcessID envNvda (ProcRef.pid 1) false =
      { name := "nvda", tookSnapshot := false, effects := [] }
    ∧ (getAppNameFromProcessID envPath (ProcRef.pid 5) false).name = "c:\\dir\\app" :=
  ⟨(C8_name_resolution envNvda 1 false).1 (by decide),
   ((C8_name_resolution envPath 5 false).2 (by decide)).2.1 "C:\\dir\\App.EXE" (by decide)⟩

/-! ### C4: helper lemmas about the registry and the eviction loop -/

/-- A successful runtime bind only rewrites the key map. -/
theorem bindKeyRuntime_ok_id (env : Env) (m : Module) (k s : String) (m' : Module)
    (h : bindKeyRuntime env m k s = .ok m') :
    m'.uid = m.uid ∧ m'.processID = m.processID := by
  unfold bindKeyRuntime at h
  cases hs : env.scripts s with
  | false => simp [hs] at h
  | true =>
    simp only [hs, if_true] at h
    cases h
    exact ⟨rfl, rfl⟩

/-- The line-processing loop only rewrites the key map. -/
theorem processLines_id (env : Env) (app : String) (ls : List String) :
    ∀ m cnt, (processLines env app ls m cnt).1.uid = m.uid
      ∧ (processLines env app ls m cnt).1.processID = m.processID := by
  induction ls with
  | nil => intro m cnt; simp [processLines]
  | cons line rest ih =>
    intro m cnt
    cases hm : matchKeyScript line with
    | none =>
      simp only [processLines, hm]
      exact ih m cnt
    | some ks =>
      rcases ks with ⟨k, s⟩
      cases hb : bindKeyRuntime env m k s with
      | ok m' =>
        simp only [processLines, hm, hb]
        have hid := bindKeyRuntime_ok_id env m k s m' hb
        have hrec := ih m' (cnt + 1)
        exact ⟨hrec.1.trans hid.1, hrec.2.trans hid.2⟩
      | error e =>
        simp only [processLines, hm, hb]
        exact ih m cnt

/-- `loadKeyMap` only rewrites the key map of the module it is given. -/
theorem loadKeyMap_id (env : Env) (app : String) (mod : Module) :
    (loadKeyMap env app mod).2.1.uid = mod.uid
    ∧ (loadKeyMap env app mod).2.1.processID = mod.processID := by
  rcases hgk : getKeyMapFileName env app env.layout with ⟨o, e0⟩
  cases o with
  | none =>
    rw [loadKeyMap_no_file env app mod (by rw [hgk])]
    exact ⟨rfl, rfl⟩
  | some f =>
    simp only [loadKeyMap, hgk]
    rcases hcl : (if mod.keyMap.isSome = true then
        { mod with keyMap := some [] } else mod) with mod1
    have h1 : mod1.uid = mod.uid ∧ mod1.processID = mod.processID := by
      rw [← hcl]
      by_cases h : mod.keyMap.isSome = true <;> simp [h]
    rcases hp : processLines env app (keptLines ((env.files f).getD [])) mod1 0
      with ⟨m2, c2, e2⟩
    have hrec := processLines_id env app (keptLines ((env.files f).getD [])) mod1 0
    rw [hp] at hrec
    simp only [hcl, hp]
    exact ⟨hrec.1.trans h1.1, hrec.2.trans h1.2⟩

/-- Case analysis of `getAppModuleFromProcessID`: either the state is left
unchanged (cache hit or a propagated load error), or exactly one fresh
entry is appended for the requested pid, carrying the fresh uid. -/
theorem gam_cases (env : Env) (st : St) (pid : Nat) :
    (getAppModuleFromProcessID env st pid).2.1 = st
    ∨ (∃ m, (getAppModuleFromProcessID env st pid).1 = .ok m
        ∧ (getAppModuleFromProcessID env st pid).2.1 =
            { runningTable := st.runningTable ++ [(pid, m)], nextUid := st.nextUid + 1 }
        ∧ m.uid = st.nextUid ∧ m.processID = ProcRef.pid pid
        ∧ lookupTable st.runningTable pid = none) := by
  cases hlk : lookupTable st.runningTable pid with
  | some m =>
    left
    simp [getAppModuleFromProcessID, hlk]
  | none =>
    rcases hfc : fetchAppModuleClass env
        (getAppNameFromProcessID env (ProcRef.pid pid) false).name with ⟨r, effs⟩
    cases r with
    | error e =>
      left
      simp [getAppModuleFromProcessID, hlk, hfc]
    | ok cls =>
      right
      rcases hl : loadKeyMap env
          (mkModule st.nextUid (ProcRef.pid pid)
            (getAppNameFromProcessID env (ProcRef.pid pid) false).name cls).appName
          (mkModule st.nextUid (ProcRef.pid pid)
            (getAppNameFromProcessID env (ProcRef.pid pid) false).name cls)
        with ⟨found, m', e2⟩
      have hid := loadKeyMap_id env
        (mkModule st.nextUid (ProcRef.pid pid)
          (getAppNameFromProcessID env (ProcRef.pid pid) false).name cls).appName
        (mkModule st.nextUid (ProcRef.pid pid)
          (getAppNameFromProcessID env (ProcRef.pid pid) false).name cls)
      rw [hl] at hid
      refine ⟨m', ?_, ?_, hid.1, hid.2, rfl⟩
      · simp [getAppModuleFromProcessID, hlk, hfc, hl]
      · simp [getAppModuleFromProcessID, hlk, hfc, hl]

/-- Eviction never introduces registry values. -/
theorem eraseProc_subset (l : List (Nat × Module)) (r : ProcRef) (m : Module)
    (h : m ∈ (eraseProc l r).map Prod.snd) : m ∈ l.map Prod.snd := by
  cases r with
  | pid p =>
    simp only [eraseProc, List.mem_map, List.mem_filter] at h
    rcases h with ⟨e, ⟨he, _⟩, hm⟩
    exact List.mem_map.mpr ⟨e, he, hm⟩
  | str s => simpa [eraseProc] using h

/-- Evicting a module's own key removes every entry holding it, provided
every stored module records its key as its processID. -/
theorem eraseProc_self_not_mem (l : List (Nat × Module)) (m : Module) (p : Nat)
    (hp : m.processID = ProcRef.pid p)
    (he : ∀ e ∈ l, e.2.processID = ProcRef.pid e.1) :
    m ∉ (eraseProc l (ProcRef.pid p)).map Prod.snd := by
  intro hmem
  simp only [eraseProc, List.mem_map, List.mem_filter] at hmem
  rcases hmem with ⟨e, ⟨hel, hne⟩, hm⟩
  have := he e hel
  rw [hm, hp] at this
  cases this
  simp at hne

/-- Eviction preserves the key-as-processID property. -/
theorem eraseProc_entries (l : List (Nat × Module)) (r : ProcRef)
    (he : ∀ e ∈ l, e.2.processID = ProcRef.pid e.1) :
    ∀ e ∈ eraseProc l r, e.2.processID = ProcRef.pid e.1 := by
  intro e hmem
  cases r with
  | pid p =>
    exact he e (List.mem_of_mem_filter hmem)
  | str s => exact he e hmem

/-- A registry lookup never lowers the fresh-uid counter. -/
theorem gam_nextUid_mono (env : Env) (st : St) (pid : Nat) :
    st.nextUid ≤ ((getAppModuleFromProcessID env st pid).2.1).nextUid := by
  rcases gam_cases env st pid with hcase | ⟨m, _, hst, _, _, _⟩
  · rw [hcase]
  · rw [hst]
    exact Nat.le_succ _

/-- A registry lookup preserves the key-as-processID property of the
table. -/
theorem gam_entries (env : Env) (st : St) (pid : Nat)
    (he : ∀ e ∈ st.runningTable, e.2.processID = ProcRef.pid e.1) :
    ∀ e ∈ ((getAppModuleFromProcessID env st pid).2.1).runningTable,
      e.2.processID = ProcRef.pid e.1 := by
  rcases gam_cases env st pid with hcase | ⟨m, _, hst, _, hpid, _⟩
  · rw [hcase]
    exact he
  · rw [hst]
    intro e hmem
    rcases List.mem_append.mp hmem with hmem | hmem
    · exact he e hmem
    · simp only [List.mem_singleton] at hmem
      rw [hmem]
      exact hpid

/-- A registry lookup preserves the absence of a module whose uid is below
the fresh counter (the only value it can add carries the fresh uid). -/
theorem gam_keeps_absent (env : Env) (st : St) (pid : Nat) (m : Module)
    (habs : m ∉ st.runningTable.map Prod.snd) (hu : m.uid < st.nextUid) :
    m ∉ ((getAppModuleFromProcessID env st pid).2.1).runningTable.map Prod.snd := by
  rcases gam_cases env st pid with hcase | ⟨m', _, hst, huid, _, _⟩
  · rw [hcase]; exact habs
  · rw [hst]
    intro hmem
    simp only [List.map_append, List.mem_append, List.map_cons, List.map_nil,
      List.mem_singleton] at hmem
    rcases hmem with hmem | hmem
    · exact habs hmem
    · rw [hmem] at hu
      rw [huid] at hu
      exact Nat.lt_irrefl _ hu

/-- Once a tracked module with an old uid is out of the registry, the rest of
the eviction loop never brings it back. -/
theorem updateGo_keeps_absent (env : Env) (pid : Nat) (m : Module) :
    ∀ dl : List Module, ∀ st n r st' n' effs,
      m ∉ st.runningTable.map Prod.snd →
      m.uid < st.nextUid →
      updateGo env pid dl st n = (r, st', n', effs) →
      m ∉ st'.runningTable.map Prod.snd := by
  intro dl
  induction dl with
  | nil =>
    intro st n r st' n' effs habs _ h
    cases h
    exact habs
  | cons d rest ih =>
    intro st n r st' n' effs habs hu h
    simp only [updateGo] at h
    rcases hg : getAppModuleFromProcessID env
        { st with runningTable := eraseProc st.runningTable d.processID } pid
      with ⟨rg, st2, e2⟩
    have habs1 : m ∉ (eraseProc st.runningTable d.processID).map Prod.snd :=
      fun hmem => habs (eraseProc_subset _ _ _ hmem)
    have habs2 : m ∉ st2.runningTable.map Prod.snd := by
      have hk := gam_keeps_absent env
        { st with runningTable := eraseProc st.runningTable d.processID } pid m habs1 hu
      rw [hg] at hk
      exact hk
    have hu2 : m.uid < st2.nextUid := by
      have hmono := gam_nextUid_mono env
        { st with runningTable := eraseProc st.runningTable d.processID } pid
      rw [hg] at hmono
      exact Nat.lt_of_lt_of_le hu hmono
    rw [hg] at h
    cases rg with
    | error e =>
      dsimp only at h
      cases h
      exact habs2
    | ok mv =>
      rcases hrec : updateGo env pid rest st2 (n + 1) with ⟨r3, st3, n3, e3⟩
      dsimp only at h
      rw [hrec] at h
      dsimp only at h
      cases h
      exact ih st2 (n + 1) _ _ _ _ habs2 hu2 hrec


/-- A module that is dead at collection time and appears in the eviction
list is gone from the registry once the loop finishes normally. -/
theorem updateGo_removes (env : Env) (pid : Nat) (m : Module) (N0 : Nat)
    (hu : m.uid < N0) (p : Nat) (hp : m.processID = ProcRef.pid p) :
    ∀ dl : List Module, ∀ st n st' n' effs,
      m ∈ dl →
      (∀ e ∈ st.runningTable, e.2.processID = ProcRef.pid e.1) →
      N0 ≤ st.nextUid →
      updateGo env pid dl st n = (.ok (), st', n', effs) →
      m ∉ st'.runningTable.map Prod.snd := by
  intro dl
  induction dl with
  | nil =>
    intro st n st' n' effs hmem _ _ _
    simp at hmem
  | cons d rest ih =>
    intro st n st' n' effs hmem he hN h
    simp only [updateGo] at h
    rcases hg : getAppModuleFromProcessID env
        { st with runningTable := eraseProc st.runningTable d.processID } pid
      with ⟨rg, st2, e2⟩
    rw [hg] at h
    cases rg with
    | error e =>
      dsimp only at h
      simp at h
    | ok mv =>
      rcases hrec : updateGo env pid rest st2 (n + 1) with ⟨r3, st3, n3, e3⟩
      dsimp only at h
      rw [hrec] at h
      dsimp only at h
      cases h
      have he1 : ∀ e ∈ eraseProc st.runningTable d.processID,
          e.2.processID = ProcRef.pid e.1 := eraseProc_entries _ _ he
      have he2 : ∀ e ∈ st2.runningTable, e.2.processID = ProcRef.pid e.1 := by
        have hg2 := gam_entries env
          { st with runningTable := eraseProc st.runningTable d.processID } pid he1
        rw [hg] at hg2
        exact hg2
      have hN2 : N0 ≤ st2.nextUid := by
        have hmono := gam_nextUid_mono env
          { st with runningTable := eraseProc st.runningTable d.processID } pid
        rw [hg] at hmono
        exact le_trans hN hmono
      rcases List.mem_cons.mp hmem with hmd | hmr
      · subst hmd
        have habs1 : m ∉ (eraseProc st.runningTable m.processID).map Prod.snd := by
          rw [hp]
          exact eraseProc_self_not_mem st.runningTable m p hp he
        have habs2 : m ∉ st2.runningTable.map Prod.snd := by
          have hk := gam_keeps_absent env
            { st with runningTable := eraseProc st.runningTable m.processID } pid m habs1
            (Nat.lt_of_lt_of_le hu hN)
          rw [hg] at hk
          exact hk
        exact updateGo_keeps_absent env pid m rest st2 (n + 1) _ _ _ _ habs2
          (Nat.lt_of_lt_of_le hu hN2) hrec
      · exact ih st2 (n + 1) _ _ _ hmr he2 hN2 hrec

/-- A normal pass of the eviction loop calls the registry lookup exactly
once per element of the eviction list. -/
theorem updateGo_count (env : Env) (pid : Nat) :
    ∀ dl : List Module, ∀ st n st' n' effs,
      updateGo env pid dl st n = (.ok (), st', n', effs) →
      n' = n + dl.length := by
  intro dl
  induction dl with
  | nil =>
    intro st n st' n' effs h
    cases h
    simp
  | cons d rest ih =>
    intro st n st' n' effs h
    simp only [updateGo] at h
    rcases hg : getAppModuleFromProcessID env
        { st with runningTable := eraseProc st.runningTable d.processID } pid
      with ⟨rg, st2, e2⟩
    rw [hg] at h
    cases rg with
    | error e =>
      dsimp only at h
      simp at h
    | ok mv =>
      rcases hrec : updateGo env pid rest st2 (n + 1) with ⟨r3, st3, n3, e3⟩
      dsimp only at h
      rw [hrec] at h
      dsimp only at h
      cases h
      have := ih st2 (n + 1) _ _ _ hrec
      have hlen : (d :: rest).length = rest.length + 1 := List.length_cons d rest
      omega

/-- C4 (amended): a call to `update` removes from the registry every module
instance that was cached and dead at call time, and performs the fresh
`getAppModuleFromProcessID(currentProcessID)` once per evicted entry —
the call sits inside the eviction loop, so when no cached entry is dead no
fresh lookup is performed at all. -/
theorem C4_update_evicts_dead (env : Env) (st : St) (pid : Nat) (hwf : WFSt st)
    (st' : St) (n : Nat) (effs : List Effect)
    (h : update env st pid = (.ok (), st', n, effs)) :
    n = ((st.runningTable.map Prod.snd).filter
          (fun mod => !env.alive mod.processID)).length
    ∧ ∀ m ∈ st.runningTable.map Prod.snd, env.alive m.processID = false →
        m ∉ st'.runningTable.map Prod.snd := by
  have h' : updateGo env pid
      ((st.runningTable.map Prod.snd).filter (fun mod => !env.alive mod.processID))
      st 0 = (.ok (), st', n, effs) := by
    simpa [update] using h
  constructor
  · simpa using updateGo_count env pid _ st 0 st' n effs h'
  · intro m hm halive
    obtain ⟨e, he, hme⟩ := List.mem_map.mp hm
    have hprops := hwf.2 e he
    have hp : m.processID = ProcRef.pid e.1 := by rw [← hme]; exact hprops.1
    have hu : m.uid < st.nextUid := by rw [← hme]; exact hprops.2
    have hmem : m ∈ (st.runningTable.map Prod.snd).filter
        (fun mod => !env.alive mod.processID) :=
      List.mem_filter.mpr ⟨hm, by simp [halive]⟩
    exact updateGo_removes env pid m st.nextUid hu e.1 hp _ st 0 st' n effs hmem
      (fun e' he' => (hwf.2 e' he').1) (le_refl _) h'

/-- C4 counterexample: with every cached process alive and process 2 not yet
cached, `update` performs zero `getAppModuleFromProcessID` calls and leaves
the registry unchanged — in particular process 2 remains unbound — even
though a direct `getAppModuleFromProcessID` on the same state would have
cached a binding for it.  The fresh lookup the claim promises happens only
inside the eviction loop. -/
theorem C4_counterexample :
    update envEmpty stOneAlive 2 = (.ok (), stOneAlive, 0, [])
    ∧ lookupTable stOneAlive.runningTable 2 = none
    ∧ (lookupTable
        ((getAppModuleFromProcessID envEmpty stOneAlive 2).2.1).runningTable 2).isSome
        = true := by
  decide

/-- C4 amended-claim witness: one dead entry is evicted, exactly one fresh
lookup happens, and the dead instance is gone from the resulting
registry. -/
theorem C4_update_evicts_dead_witness :
    1 = ((stOneAlive.runningTable.map Prod.snd).filter
          (fun mod => !envDead.alive mod.processID)).length
    ∧ ∀ m ∈ stOneAlive.runningTable.map Prod.snd, envDead.alive m.processID = false →
        m ∉ stAfterDead.runningTable.map Prod.snd :=
  C4_update_evicts_dead envDead stOneAlive 2 (by decide) stAfterDead 1 effsDead (by decide)

end AppModuleHandler
